import Mathlib

/-!
Verification development for the SROTT port-sniffer core (`srott/srott.py`).

The Python core is shallowly embedded: the operating-system surface that the
code consults (TCP connect results, the `psutil` connection table, process
attribute lookups, and `os.kill`) is modelled as an explicit environment
record, and each Python method becomes a pure Lean function over that
environment.  Machine behaviour that the code itself performs (dictionary
insertion, list appends, the thread-pool completion order) is modelled
explicitly: `scan_ports` is parametrised by the completion order of the
probes, an arbitrary permutation of the submitted port list.
-/

namespace Srott

/-- The dictionary of process attributes built by `get_process_info`.
Each field models one key of the Python dict; `none` means the key is absent
from the returned dict. The `pid` key is present in every returned dict, so
it is not optional. -/
structure ProcessInfo where
  pid : Int
  name : Option String
  cmdline : Option String
  user : Option String
  status : Option String
  create_time : Option Int
deriving DecidableEq

/-- Outcome of `psutil.Process(pid)` together with the attribute calls
(`name()`, `cmdline()`, `username()`, `status()`, `create_time()`):
either all attributes resolve, or one of the two caught psutil exceptions
is raised, or some other exception is raised. -/
inductive ProcOutcome where
  | ok (name : String) (cmdline : List String) (user : String) (status : String)
      (create_time : Int)
  | noSuchProcess
  | accessDenied
  | otherError
deriving DecidableEq

/-- One entry of `psutil.net_connections()`: local-address port, connection
status string, and owning pid. -/
structure Conn where
  laddrPort : Int
  status : String
  pid : Int
deriving DecidableEq

/-- The operating-system surface consulted during a scan.
`sockSetupOk port` is whether `socket.socket(socket.AF_INET,
socket.SOCK_STREAM)` and `sock.settimeout(self.timeout)` complete without
raising for the probe of `port`; these two statements run BEFORE the `try`
block of `check_port`, so a failure there is not caught.
`connectResult port` is the outcome of `sock.connect_ex(("127.0.0.1", port))`
inside the `try`: `some r` is a returned error code (`0` means connected),
`none` means the call raised an exception (caught).  `enumOk` is whether
`psutil.net_connections()` enumerates without raising.  `procLookup pid` is
the outcome of inspecting process `pid`. -/
structure ScanEnv where
  sockSetupOk : Int → Bool
  connectResult : Int → Option Int
  enumOk : Bool
  connections : List Conn
  procLookup : Int → ProcOutcome

/-- The `PortSniffer` object: the four constructor-stored fields plus the two
mutable accumulators `self.open_ports` (a dict, modelled as an
insertion-ordered association list) and `self.closed_ports` (a list). -/
structure PortSniffer where
  start_port : Int
  end_port : Int
  timeout : Rat
  max_workers : Int
  open_ports : List (Int × Option ProcessInfo)
  closed_ports : List Int
deriving DecidableEq

/-- `PortSniffer.__init__`: stores the four parameters and initialises the
accumulators empty.  The source performs no validation of any argument. -/
def PortSniffer.init (s e : Int) (t : Rat) (w : Int) : PortSniffer :=
  { start_port := s, end_port := e, timeout := t, max_workers := w,
    open_ports := [], closed_ports := [] }

/-- The loop test of `get_process_info`:
`conn.laddr.port == port and conn.status == 'LISTEN'`. -/
def connMatches (port : Int) (c : Conn) : Bool :=
  c.laddrPort == port && c.status == "LISTEN"

/-- The body of `get_process_info` run on the matched connection entry:
the inner `try` producing the full attribute dict, with
`psutil.NoSuchProcess` and `psutil.AccessDenied` both caught and mapped to
the degraded dict `{'pid': conn.pid, 'name': 'Access Denied', 'user': 'N/A'}`;
any other exception escapes to the outer handler (modelled `none`). -/
def resolveConn (env : ScanEnv) (c : Conn) : Option ProcessInfo :=
  match env.procLookup c.pid with
  | ProcOutcome.ok n cl u st ct =>
      some { pid := c.pid, name := some n,
             cmdline := some (String.intercalate " " cl),
             user := some u, status := some st, create_time := some ct }
  | ProcOutcome.noSuchProcess =>
      some { pid := c.pid, name := some "Access Denied", cmdline := none,
             user := some "N/A", status := none, create_time := none }
  | ProcOutcome.accessDenied =>
      some { pid := c.pid, name := some "Access Denied", cmdline := none,
             user := some "N/A", status := none, create_time := none }
  | ProcOutcome.otherError => none

/-- `PortSniffer.get_process_info`: scans the connection table for the first
entry listening on `port`; the outer `try ... except Exception: pass` makes
every failure (enumeration failure, or a non-psutil exception inside the
loop) fall through to `return None`. -/
def get_process_info (env : ScanEnv) (port : Int) : Option ProcessInfo :=
  if env.enumOk then
    match env.connections.find? (connMatches port) with
    | some c => resolveConn env c
    | none => none
  else none

/-- `PortSniffer.check_port`.  `socket.socket(...)` and
`sock.settimeout(self.timeout)` execute before the `try` block, so an
exception raised there propagates out of `check_port` (modelled `none`).
Inside the `try`, a connect attempt returning error code `0` classifies the
port open and triggers correlation; any nonzero code or any exception
raised inside the `try` classifies the port closed with no process info. -/
def check_port (env : ScanEnv) (port : Int) :
    Option (Int × Bool × Option ProcessInfo) :=
  if env.sockSetupOk port then
    some (match env.connectResult port with
      | some r => if r = 0 then (port, true, get_process_info env port)
                  else (port, false, none)
      | none => (port, false, none))
  else none

/-- Whether `check_port` classifies `port` open under `env`. -/
def portOpen (env : ScanEnv) (port : Int) : Bool :=
  match env.connectResult port with
  | some r => r == 0
  | none => false

/-- Python `range(s, stop)` over integers, as a list. -/
def pyRangeList (s stop : Int) : List Int :=
  (List.range (stop - s).toNat).map (fun i => s + (Nat.cast i : Int))

/-- The ports submitted by `scan_ports`: `range(self.start_port,
self.end_port + 1)`. -/
def scannedPorts (s e : Int) : List Int := pyRangeList s (e + 1)

/-- Python dict assignment `d[k] = v`: overwrite in place if the key is
present, otherwise append (insertion order is preserved). -/
def dictInsert (d : List (Int × Option ProcessInfo)) (k : Int)
    (v : Option ProcessInfo) : List (Int × Option ProcessInfo) :=
  if d.any (fun kv => kv.1 == k) then
    d.map (fun kv => if kv.1 == k then (k, v) else kv)
  else d ++ [(k, v)]

/-- The effect on the sniffer state of recording one probe result that was
returned (not raised): the `if is_open: self.open_ports[port] = process_info
else: self.closed_ports.append(port)` branch of the `as_completed` loop,
specialised to the tuple `check_port` returns for `port` when its socket
setup succeeded. -/
def scanStep (env : ScanEnv) (sn : PortSniffer) (port : Int) : PortSniffer :=
  if portOpen env port then
    { sn with
      open_ports := dictInsert sn.open_ports port (get_process_info env port) }
  else { sn with closed_ports := sn.closed_ports ++ [port] }

/-- The aggregate dict returned by `scan_ports`:
`{'open': ..., 'closed': ..., 'total_scanned': ...}`. -/
structure ScanResult where
  openPorts : List (Int × Option ProcessInfo)
  closedPorts : List Int
  total_scanned : Int
deriving DecidableEq

/-- The `as_completed` loop of `scan_ports`: processes the finished futures
in completion order.  `future.result()` re-raises an exception that escaped
`check_port` (its pre-`try` socket setup failing), which aborts the loop and
propagates out of `scan_ports` — modelled `none`; the accumulator mutations
already performed before the abort stay on the Python object but no result
is returned, so the aborted instance is not modelled further.  For a probe
that returned, the loop records the port, increments `completed` and
invokes the progress callback with `(completed, total)`.  Returns the
updated sniffer state and the list of progress-callback invocations. -/
def scanLoop (env : ScanEnv) (total : Int) :
    List Int → PortSniffer → Int → List (Int × Int) →
    Option (PortSniffer × List (Int × Int))
  | [], sn, _, trace => some (sn, trace)
  | port :: rest, sn, completed, trace =>
      match check_port env port with
      | none => none
      | some r =>
          scanLoop env total rest
            (if r.2.1 then
              { sn with open_ports := dictInsert sn.open_ports r.1 r.2.2 }
            else { sn with closed_ports := sn.closed_ports ++ [r.1] })
            (completed + 1) (trace ++ [(completed + 1, total)])

/-- `PortSniffer.scan_ports`: submits one `check_port` future per port of
`range(self.start_port, self.end_port + 1)` and folds the completions over
the (nondeterministic) completion order `order`; `total` is
`self.end_port - self.start_port + 1`.  Returns the updated sniffer, the
result dict, and the sequence of progress-callback invocations; `none`
models the call raising (a probe's socket setup failed), in which case no
result dict is returned to the caller. -/
def scan_ports (env : ScanEnv) (order : List Int) (sn : PortSniffer) :
    Option (PortSniffer × ScanResult × List (Int × Int)) :=
  let total := sn.end_port - sn.start_port + 1
  match scanLoop env total order sn 0 [] with
  | some r =>
      some (r.1, { openPorts := r.1.open_ports,
                   closedPorts := r.1.closed_ports,
                   total_scanned := total }, r.2)
  | none => none

/-- The progress-callback invocations made while `n` probes complete,
starting from completed-count `c`: the i-th invocation reports
`(c + i + 1, total)`. -/
def progressTrace (c : Int) (n : Nat) (total : Int) : List (Int × Int) :=
  (List.range n).map (fun i => (c + (Nat.cast i : Int) + 1, total))

/-- The POSIX signals sent by `ProcessManager`. -/
inductive Sig where
  | SIGCONT | SIGSTOP | SIGTERM | SIGKILL
deriving DecidableEq

/-- The operating-system surface of `ProcessManager`: `kill pid sig` is the
outcome of `os.kill(pid, sig)` — `ok` on success, `error e` when the call
raises an exception whose string form is `e`. -/
structure OsEnv where
  kill : Int → Sig → Except String Unit

/-- `ProcessManager.is_system_port`. -/
def is_system_port (port : Int) : Bool := port < 1024

/-- `ProcessManager.start_process`: sends SIGCONT, catching every exception
into a `(False, message)` result. -/
def start_process (env : OsEnv) (pid : Int) : Bool × String :=
  match env.kill pid Sig.SIGCONT with
  | Except.ok _ =>
      (true, "Process " ++ toString pid ++ " resumed successfully")
  | Except.error e =>
      (false, "Failed to resume process " ++ toString pid ++ ": " ++ e)

/-- `ProcessManager.pause_process`: sends SIGSTOP, catching every exception
into a `(False, message)` result. -/
def pause_process (env : OsEnv) (pid : Int) : Bool × String :=
  match env.kill pid Sig.SIGSTOP with
  | Except.ok _ =>
      (true, "Process " ++ toString pid ++ " paused successfully")
  | Except.error e =>
      (false, "Failed to pause process " ++ toString pid ++ ": " ++ e)

/-- `ProcessManager.kill_process`: sends SIGKILL when `force` else SIGTERM,
catching every exception into a `(False, message)` result. -/
def kill_process (env : OsEnv) (pid : Int) (force : Bool) : Bool × String :=
  match env.kill pid (if force then Sig.SIGKILL else Sig.SIGTERM) with
  | Except.ok _ =>
      (true, "Process " ++ toString pid ++ " killed successfully")
  | Except.error e =>
      (false, "Failed to kill process " ++ toString pid ++ ": " ++ e)

/-- Error kinds of the specification's validating constructor. -/
inductive SpecError where
  | InvalidRange | InvalidConfig
deriving DecidableEq

/-- Modelled from the spec: construction of a scanner from a `PortRange` and
`ScanConfig` "fails with an `InvalidRange` or `InvalidConfig` error kind if
invariants are violated", the invariants being `1 <= start <= end <= 65535`,
`timeout > 0` and `concurrency >= 1`. -/
def spec_construct (s e : Int) (t : Rat) (w : Int) :
    Except SpecError PortSniffer :=
  if 1 ≤ s ∧ s ≤ e ∧ e ≤ 65535 then
    if 0 < t ∧ 1 ≤ w then Except.ok (PortSniffer.init s e t w)
    else Except.error SpecError.InvalidConfig
  else Except.error SpecError.InvalidRange

/-- `PortSniffer.__init__` expressed in the spec's error-returning shape, for
comparison with `spec_construct`: the source constructor performs no checks,
so it always succeeds. -/
def srott_construct (s e : Int) (t : Rat) (w : Int) :
    Except SpecError PortSniffer :=
  Except.ok (PortSniffer.init s e t w)

/-- Environment in which every socket setup succeeds, every connect attempt
returns error code 1 (all ports closed) and the connection table is empty. -/
def envAllClosed : ScanEnv :=
  { sockSetupOk := fun _ => true, connectResult := fun _ => some 1,
    enumOk := true, connections := [],
    procLookup := fun _ => ProcOutcome.otherError }

/-- Environment in which every socket setup succeeds, every connect attempt
succeeds, port 80 is owned by pid 42 in the connection table, and every
process inspection raises `psutil.AccessDenied`. -/
def envDenied : ScanEnv :=
  { sockSetupOk := fun _ => true, connectResult := fun _ => some 0,
    enumOk := true,
    connections := [{ laddrPort := 80, status := "LISTEN", pid := 42 }],
    procLookup := fun _ => ProcOutcome.accessDenied }

/-- Environment in which the pre-`try` socket setup (`socket.socket(...)` /
`settimeout`) raises for every probe — for example file-descriptor
exhaustion, or the `ValueError` a negative timeout produces, which the
unvalidated constructor accepts. -/
def envSetupFail : ScanEnv :=
  { sockSetupOk := fun _ => false, connectResult := fun _ => some 1,
    enumOk := true, connections := [],
    procLookup := fun _ => ProcOutcome.otherError }

/-- Operating-system environment in which every `os.kill` raises
"No such process" (the target process is already gone). -/
def envDead : OsEnv :=
  { kill := fun _ _ => Except.error "No such process" }

/-- Operating-system environment in which every `os.kill` succeeds. -/
def envLive : OsEnv :=
  { kill := fun _ _ => Except.ok () }

/-- The concrete completed scan of the one-port range `[1, 1]` in
`envAllClosed`: final sniffer state, result dict, and progress trace. -/
def oneScanOut : PortSniffer × ScanResult × List (Int × Int) :=
  ({ start_port := 1, end_port := 1, timeout := 1, max_workers := 100,
     open_ports := [], closed_ports := [1] },
   { openPorts := [], closedPorts := [1], total_scanned := 1 },
   [(1, 1)])

/-- A first full scan of ports 1–2 in `envAllClosed` followed by a second
`scan_ports` call on the same instance (the interactive `refresh` path
reuses the instance): the second call starts from the sniffer state the
first call left behind. -/
def secondScan : Option (PortSniffer × ScanResult × List (Int × Int)) :=
  (scan_ports envAllClosed [1, 2] (PortSniffer.init 1 2 1 100)).bind
    (fun out => scan_ports envAllClosed [1, 2] out.1)

/-! ### Basic lemmas about the embedded definitions -/

theorem mem_pyRangeList {s stop p : Int} :
    p ∈ pyRangeList s stop ↔ s ≤ p ∧ p < stop := by
  unfold pyRangeList
  rw [List.mem_map]
  constructor
  · rintro ⟨i, hi, rfl⟩
    rw [List.mem_range] at hi
    omega
  · intro h
    refine ⟨(p - s).toNat, ?_, ?_⟩
    · rw [List.mem_range]
      omega
    · omega

theorem nodup_pyRangeList (s stop : Int) : (pyRangeList s stop).Nodup := by
  unfold pyRangeList
  refine List.Nodup.map ?_ (List.nodup_range _)
  intro a b h
  have h2 : s + (a : Int) = s + (b : Int) := h
  omega

theorem length_pyRangeList (s stop : Int) :
    (pyRangeList s stop).length = (stop - s).toNat := by
  unfold pyRangeList
  rw [List.length_map, List.length_range]

theorem mem_scannedPorts {s e p : Int} :
    p ∈ scannedPorts s e ↔ s ≤ p ∧ p ≤ e := by
  unfold scannedPorts
  rw [mem_pyRangeList]
  omega

theorem nodup_scannedPorts (s e : Int) : (scannedPorts s e).Nodup :=
  nodup_pyRangeList s (e + 1)

theorem length_scannedPorts (s e : Int) :
    (scannedPorts s e).length = (e + 1 - s).toNat :=
  length_pyRangeList s (e + 1)

theorem check_port_eq (env : ScanEnv) (p : Int) :
    check_port env p =
      if env.sockSetupOk p then
        some (p, portOpen env p,
          if portOpen env p then get_process_info env p else none)
      else none := by
  unfold check_port portOpen
  by_cases hs : env.sockSetupOk p = true
  · rw [if_pos hs, if_pos hs]
    cases h : env.connectResult p with
    | none => rfl
    | some r =>
      by_cases hr : r = 0 <;> simp [hr]
  · rw [if_neg hs, if_neg hs]

theorem scanStep_open (env : ScanEnv) (sn : PortSniffer) (p : Int)
    (h : portOpen env p = true) :
    scanStep env sn p =
      { sn with
        open_ports := dictInsert sn.open_ports p (get_process_info env p) } := by
  unfold scanStep
  rw [if_pos h]

theorem scanStep_closed (env : ScanEnv) (sn : PortSniffer) (p : Int)
    (h : portOpen env p = false) :
    scanStep env sn p = { sn with closed_ports := sn.closed_ports ++ [p] } := by
  unfold scanStep
  rw [if_neg (by simp [h])]

theorem any_keys (d : List (Int × Option ProcessInfo)) (k : Int) :
    (d.any fun kv => kv.1 == k) = true ↔ k ∈ d.map Prod.fst := by
  simp only [List.any_eq_true, List.mem_map, beq_iff_eq]

theorem keys_dictInsert (d : List (Int × Option ProcessInfo)) (k : Int)
    (v : Option ProcessInfo) :
    (dictInsert d k v).map Prod.fst =
      if k ∈ d.map Prod.fst then d.map Prod.fst
      else d.map Prod.fst ++ [k] := by
  unfold dictInsert
  by_cases h : k ∈ d.map Prod.fst
  · rw [if_pos ((any_keys d k).2 h), if_pos h, List.map_map]
    refine List.map_congr_left ?_
    intro kv _
    by_cases hk : kv.1 = k <;> simp [hk]
  · rw [if_neg (fun hc => h ((any_keys d k).1 hc)), if_neg h]
    simp

theorem mem_keys_dictInsert {d : List (Int × Option ProcessInfo)} {k p : Int}
    {v : Option ProcessInfo} :
    p ∈ (dictInsert d k v).map Prod.fst ↔ p ∈ d.map Prod.fst ∨ p = k := by
  rw [keys_dictInsert]
  by_cases h : k ∈ d.map Prod.fst
  · rw [if_pos h]
    constructor
    · exact Or.inl
    · rintro (hp | rfl)
      · exact hp
      · exact h
  · rw [if_neg h]
    simp

theorem dictInsert_fresh {d : List (Int × Option ProcessInfo)} {k : Int}
    {v : Option ProcessInfo} (h : k ∉ d.map Prod.fst) :
    dictInsert d k v = d ++ [(k, v)] := by
  unfold dictInsert
  rw [if_neg (fun hc => h ((any_keys d k).1 hc))]

theorem closed_ports_foldl (env : ScanEnv) (order : List Int) :
    ∀ sn : PortSniffer,
      (order.foldl (scanStep env) sn).closed_ports =
        sn.closed_ports ++ order.filter (fun q => !(portOpen env q)) := by
  induction order with
  | nil => intro sn; simp
  | cons q rest ih =>
    intro sn
    rw [List.foldl_cons, ih]
    by_cases h : portOpen env q
    · rw [scanStep_open env sn q h]
      simp [List.filter_cons, h]
    · rw [scanStep_closed env sn q (by simpa using h)]
      simp [List.filter_cons, h]

theorem mem_keys_foldl (env : ScanEnv) (p : Int) (order : List Int) :
    ∀ sn : PortSniffer,
      p ∈ (order.foldl (scanStep env) sn).open_ports.map Prod.fst ↔
        p ∈ sn.open_ports.map Prod.fst ∨
          (p ∈ order ∧ portOpen env p = true) := by
  induction order with
  | nil => intro sn; simp
  | cons q rest ih =>
    intro sn
    rw [List.foldl_cons, ih]
    by_cases h : portOpen env q
    · rw [scanStep_open env sn q h]
      show p ∈ (dictInsert sn.open_ports q _).map Prod.fst ∨ _ ↔ _
      rw [mem_keys_dictInsert]
      by_cases hpq : p = q
      · subst hpq
        simp only [List.mem_cons]
        tauto
      · simp only [List.mem_cons]
        tauto
    · rw [scanStep_closed env sn q (by simpa using h)]
      show p ∈ sn.open_ports.map Prod.fst ∨ _ ↔ _
      by_cases hpq : p = q
      · subst hpq
        simp only [List.mem_cons]
        have : ¬ portOpen env p = true := by simpa using h
        tauto
      · simp only [List.mem_cons]
        tauto

theorem keys_foldl_eq (env : ScanEnv) (order : List Int) :
    ∀ sn : PortSniffer, order.Nodup →
      (∀ q ∈ order, q ∉ sn.open_ports.map Prod.fst) →
      (order.foldl (scanStep env) sn).open_ports.map Prod.fst =
        sn.open_ports.map Prod.fst ++ order.filter (portOpen env) := by
  induction order with
  | nil => intro sn _ _; simp
  | cons q rest ih =>
    intro sn hnd hfresh
    rw [List.foldl_cons]
    by_cases h : portOpen env q
    · rw [scanStep_open env sn q h]
      have hq : q ∉ sn.open_ports.map Prod.fst :=
        hfresh q (List.mem_cons_self q rest)
      have hkeys :
          ({ sn with
              open_ports :=
                dictInsert sn.open_ports q (get_process_info env q) } :
            PortSniffer).open_ports.map Prod.fst =
          sn.open_ports.map Prod.fst ++ [q] := by
        show (dictInsert sn.open_ports q _).map Prod.fst = _
        rw [dictInsert_fresh hq]
        simp
      rw [ih _ hnd.of_cons ?_, hkeys]
      · simp [List.filter_cons, h]
      · intro r hr
        rw [hkeys]
        simp only [List.mem_append, List.mem_singleton]
        push_neg
        refine ⟨hfresh r (List.mem_cons_of_mem q hr), ?_⟩
        intro hrq
        exact (List.nodup_cons.1 hnd).1 (hrq ▸ hr)
    · rw [scanStep_closed env sn q (by simpa using h)]
      rw [ih ({ sn with closed_ports := sn.closed_ports ++ [q] }) hnd.of_cons
        (fun r hr => hfresh r (List.mem_cons_of_mem q hr))]
      simp [List.filter_cons, h]

theorem progressTrace_cons (c : Int) (n : Nat) (total : Int) :
    (c + 1, total) :: progressTrace (c + 1) n total =
      progressTrace c (n + 1) total := by
  unfold progressTrace
  rw [List.range_succ_eq_map, List.map_cons, List.map_map]
  congr 1
  · norm_num
  · refine List.map_congr_left ?_
    intro i _
    show (c + 1 + (Nat.cast i : Int) + 1, total) =
      (c + (Nat.cast (Nat.succ i) : Int) + 1, total)
    push_cast
    ring_nf

theorem scanLoop_cons_ok (env : ScanEnv) (total q : Int) (rest : List Int)
    (sn : PortSniffer) (c : Int) (tr : List (Int × Int))
    (hq : env.sockSetupOk q = true) :
    scanLoop env total (q :: rest) sn c tr =
      scanLoop env total rest (scanStep env sn q) (c + 1)
        (tr ++ [(c + 1, total)]) := by
  simp only [scanLoop]
  rw [check_port_eq, if_pos hq]
  by_cases h : portOpen env q <;> simp [h, scanStep]

theorem scanLoop_ok (env : ScanEnv) (total : Int) (order : List Int) :
    ∀ (sn : PortSniffer) (c : Int) (tr : List (Int × Int)),
      (∀ p ∈ order, env.sockSetupOk p = true) →
      scanLoop env total order sn c tr =
        some (order.foldl (scanStep env) sn,
          tr ++ progressTrace c order.length total) := by
  induction order with
  | nil => intro sn c tr _; simp [scanLoop, progressTrace]
  | cons q rest ih =>
    intro sn c tr hsock
    rw [scanLoop_cons_ok env total q rest sn c tr
      (hsock q (List.mem_cons_self q rest))]
    rw [ih _ _ _ (fun p hp => hsock p (List.mem_cons_of_mem q hp))]
    rw [List.foldl_cons, List.append_assoc, List.singleton_append,
      progressTrace_cons, List.length_cons]

theorem scanLoop_some_fst (env : ScanEnv) (total : Int) (order : List Int) :
    ∀ (sn : PortSniffer) (c : Int) (tr : List (Int × Int)) (st : PortSniffer)
      (tr2 : List (Int × Int)),
      scanLoop env total order sn c tr = some (st, tr2) →
      st = order.foldl (scanStep env) sn := by
  induction order with
  | nil =>
    intro sn c tr st tr2 h
    simp only [scanLoop] at h
    injection h with h2
    have h3 : sn = st := congrArg Prod.fst h2
    exact h3.symm
  | cons q rest ih =>
    intro sn c tr st tr2 h
    by_cases hs : env.sockSetupOk q = true
    · rw [scanLoop_cons_ok env total q rest sn c tr hs] at h
      rw [List.foldl_cons]
      exact ih _ _ _ _ _ h
    · simp only [scanLoop] at h
      rw [check_port_eq, if_neg hs] at h
      exact Option.noConfusion h

theorem scan_ports_ok (env : ScanEnv) (order : List Int) (sn : PortSniffer)
    (hsock : ∀ p ∈ order, env.sockSetupOk p = true) :
    scan_ports env order sn =
      some (order.foldl (scanStep env) sn,
        { openPorts := (order.foldl (scanStep env) sn).open_ports,
          closedPorts := (order.foldl (scanStep env) sn).closed_ports,
          total_scanned := sn.end_port - sn.start_port + 1 },
        progressTrace 0 order.length (sn.end_port - sn.start_port + 1)) := by
  simp only [scan_ports]
  rw [scanLoop_ok env _ order sn 0 [] hsock]
  simp

theorem scan_ports_some_total (env : ScanEnv) (order : List Int)
    (sn : PortSniffer) (out : PortSniffer × ScanResult × List (Int × Int))
    (hout : scan_ports env order sn = some out) :
    out.2.1.total_scanned = sn.end_port - sn.start_port + 1 := by
  simp only [scan_ports] at hout
  cases hl : scanLoop env (sn.end_port - sn.start_port + 1) order sn 0 [] with
  | none =>
    rw [hl] at hout
    exact Option.noConfusion hout
  | some r =>
    rw [hl] at hout
    injection hout with h
    rw [← h]

theorem scan_ports_some_fields (env : ScanEnv) (order : List Int)
    (sn : PortSniffer) (out : PortSniffer × ScanResult × List (Int × Int))
    (hout : scan_ports env order sn = some out) :
    out.2.1.openPorts = (order.foldl (scanStep env) sn).open_ports ∧
    out.2.1.closedPorts = (order.foldl (scanStep env) sn).closed_ports := by
  simp only [scan_ports] at hout
  cases hl : scanLoop env (sn.end_port - sn.start_port + 1) order sn 0 [] with
  | none =>
    rw [hl] at hout
    exact Option.noConfusion hout
  | some r =>
    rw [hl] at hout
    injection hout with h
    obtain ⟨st, tr2⟩ := r
    have hst : st = order.foldl (scanStep env) sn :=
      scanLoop_some_fst env _ order sn 0 [] st tr2 hl
    rw [← h, ← hst]
    exact ⟨rfl, rfl⟩

theorem fresh_scan_keys (env : ScanEnv) (s e : Int) (t : Rat) (w : Int)
    (order : List Int) (hnd : order.Nodup) :
    (order.foldl (scanStep env) (PortSniffer.init s e t w)).open_ports.map
        Prod.fst =
      order.filter (portOpen env) := by
  rw [keys_foldl_eq env order (PortSniffer.init s e t w) hnd
    (fun q _ => by simp [PortSniffer.init])]
  simp [PortSniffer.init]

theorem fresh_scan_closed (env : ScanEnv) (s e : Int) (t : Rat) (w : Int)
    (order : List Int) :
    (order.foldl (scanStep env) (PortSniffer.init s e t w)).closed_ports =
      order.filter (fun q => !(portOpen env q)) := by
  rw [closed_ports_foldl]
  simp [PortSniffer.init]

theorem find?_first {α : Type} (f : α → Bool) (pre : List α) (c : α)
    (post : List α) (hpre : ∀ x ∈ pre, f x = false) (hc : f c = true) :
    (pre ++ c :: post).find? f = some c := by
  induction pre with
  | nil => exact List.find?_cons_of_pos _ hc
  | cons x xs ih =>
    rw [List.cons_append,
      List.find?_cons_of_neg _ (by simp [hpre x (List.mem_cons_self x xs)])]
    exact ih (fun y hy => hpre y (List.mem_cons_of_mem x hy))

theorem resolveConn_pid (env : ScanEnv) (c : Conn) (info : ProcessInfo)
    (h : resolveConn env c = some info) : info.pid = c.pid := by
  unfold resolveConn at h
  cases hp : env.procLookup c.pid with
  | ok n cl u st ct =>
    rw [hp] at h
    injection h with h2
    rw [← h2]
  | noSuchProcess =>
    rw [hp] at h
    injection h with h2
    rw [← h2]
  | accessDenied =>
    rw [hp] at h
    injection h with h2
    rw [← h2]
  | otherError =>
    rw [hp] at h
    exact Option.noConfusion h

/-! ### Claim theorems -/

/-- Claim C4: for every port in the inclusive range `[start, end]`,
`scan_ports` submits exactly one connection probe — the submitted port list
contains no duplicates and contains exactly the ports of `[start, end]` —
and whenever a result dict is returned its reported `total_scanned` equals
`end - start + 1`. -/
theorem srott_C4 (s e : Int) :
    (scannedPorts s e).Nodup ∧
    (∀ p : Int, p ∈ scannedPorts s e ↔ s ≤ p ∧ p ≤ e) ∧
    (∀ (env : ScanEnv) (order : List Int) (t : Rat) (w : Int)
      (out : PortSniffer × ScanResult × List (Int × Int)),
      scan_ports env order (PortSniffer.init s e t w) = some out →
      out.2.1.total_scanned = e - s + 1) := by
  refine ⟨nodup_scannedPorts s e, fun p => mem_scannedPorts, ?_⟩
  intro env order t w out hout
  rw [scan_ports_some_total env order _ out hout]
  rfl

/-- Witness for C4 at the concrete range `[1, 2]`. -/
theorem srott_C4_w : (1 : Int) ∈ scannedPorts 1 2 :=
  ((srott_C4 1 2).2.1 1).mpr (by norm_num)

/-- Claim C5 counterexample: not every probe failure is absorbed.
`socket.socket(...)` and `sock.settimeout(...)` run before the `try` block
of `check_port`, so an OS-level failure there (file-descriptor exhaustion,
or the `ValueError` a negative timeout produces) propagates out of
`check_port` — `future.result()` re-raises it in `scan_ports` and the whole
scan aborts with no result, contradicting the claim's
never-propagated / never-aborts conclusion. -/
theorem srott_C5_counterexample :
    check_port envSetupFail 3 = none ∧
    (scan_ports envSetupFail [3] (PortSniffer.init 3 3 1 100)).isSome =
      false := by
  refine ⟨rfl, ?_⟩
  decide

/-- Claim C5 (amended): once a probe's pre-`try` socket setup has succeeded,
a connect attempt that fails for any reason (nonzero error code — timeout,
refused, unreachable — or an exception raised inside the `try`) classifies
the port closed with no process info, is never propagated to the caller,
and never aborts the scan: in any completed scan whose order contains the
port, the port lands in `closedPorts` and never in `openPorts`.  However
socket creation and `settimeout` execute before the `try`, so an OS-level
failure there does propagate out of `check_port` and aborts the scan. -/
theorem srott_C5_amended (env : ScanEnv) (p : Int)
    (hsock : env.sockSetupOk p = true)
    (hfail : env.connectResult p ≠ some 0) :
    check_port env p = some (p, false, none) ∧
    ∀ (s e : Int) (t : Rat) (w : Int) (order : List Int)
      (out : PortSniffer × ScanResult × List (Int × Int)), p ∈ order →
      scan_ports env order (PortSniffer.init s e t w) = some out →
      p ∈ out.2.1.closedPorts ∧
      p ∉ out.2.1.openPorts.map Prod.fst := by
  have hopen : portOpen env p = false := by
    unfold portOpen
    cases h : env.connectResult p with
    | none => rfl
    | some r =>
      have hr : r ≠ 0 := fun hr => hfail (by rw [h, hr])
      simp [hr]
  constructor
  · rw [check_port_eq, if_pos hsock, hopen]
    simp
  · intro s e t w order out hmem hout
    obtain ⟨ho, hc⟩ :=
      scan_ports_some_fields env order (PortSniffer.init s e t w) out hout
    constructor
    · rw [hc, fresh_scan_closed]
      exact List.mem_filter.2 ⟨hmem, by simp [hopen]⟩
    · rw [ho]
      intro hp
      rcases (mem_keys_foldl env p order (PortSniffer.init s e t w)).1 hp with
        h0 | ⟨_, h1⟩
      · simp [PortSniffer.init] at h0
      · rw [hopen] at h1
        exact Bool.noConfusion h1

/-- Witness for C5 (amended): in `envAllClosed` the socket setup succeeds
and every connect returns code 1, so port 3 is classified closed. -/
theorem srott_C5_amended_w : check_port envAllClosed 3 = some (3, false, none) :=
  (srott_C5_amended envAllClosed 3 rfl (by decide)).1

/-- Claim C6: `get_process_info` resolves the first connection-table entry
whose local port equals the target and whose state is `LISTEN`; when no such
entry exists it returns `none`; and it is a total function, so no failure
during enumeration or resolution ever raises to the caller. -/
theorem srott_C6 (env : ScanEnv) (port : Int) :
    (env.connections.find? (connMatches port) = none →
      get_process_info env port = none) ∧
    (∀ (pre post : List Conn) (c : Conn), env.enumOk = true →
      env.connections = pre ++ c :: post →
      (∀ c2 ∈ pre, connMatches port c2 = false) →
      connMatches port c = true →
      get_process_info env port = resolveConn env c) := by
  constructor
  · intro hnone
    unfold get_process_info
    cases he : env.enumOk
    · simp
    · simp [hnone]
  · intro pre post c henum hconn hpre hc
    unfold get_process_info
    rw [if_pos henum, hconn, find?_first _ pre c post hpre hc]

/-- Witness for C6: the empty connection table of `envAllClosed` yields an
absent correlation result. -/
theorem srott_C6_w : get_process_info envAllClosed 80 = none :=
  (srott_C6 envAllClosed 80).1 rfl

/-- Claim C7: each lifecycle action returns a definite `(success, message)`
pair (the actions are total functions, so nothing raises); when `os.kill`
raises — nonexistent process, insufficient permission, or a repeat
terminate on an already-terminated process — the action returns
`(false, reason)`. -/
theorem srott_C7 (env : OsEnv) (pid : Int) (force : Bool) (msg : String) :
    (env.kill pid Sig.SIGCONT = Except.ok () →
      start_process env pid =
        (true, "Process " ++ toString pid ++ " resumed successfully")) ∧
    (env.kill pid Sig.SIGCONT = Except.error msg →
      start_process env pid =
        (false, "Failed to resume process " ++ toString pid ++ ": " ++ msg)) ∧
    (env.kill pid Sig.SIGSTOP = Except.ok () →
      pause_process env pid =
        (true, "Process " ++ toString pid ++ " paused successfully")) ∧
    (env.kill pid Sig.SIGSTOP = Except.error msg →
      pause_process env pid =
        (false, "Failed to pause process " ++ toString pid ++ ": " ++ msg)) ∧
    (env.kill pid (if force then Sig.SIGKILL else Sig.SIGTERM) =
        Except.ok () →
      kill_process env pid force =
        (true, "Process " ++ toString pid ++ " killed successfully")) ∧
    (env.kill pid (if force then Sig.SIGKILL else Sig.SIGTERM) =
        Except.error msg →
      kill_process env pid force =
        (false, "Failed to kill process " ++ toString pid ++ ": " ++ msg)) := by
  refine ⟨?_, ?_, ?_, ?_, ?_, ?_⟩ <;> intro h <;>
    simp [start_process, pause_process, kill_process, h]

/-- Witness for C7: a forced terminate of an already-terminated process
returns `(false, reason)` instead of raising. -/
theorem srott_C7_w :
    kill_process envDead 1234 true =
      (false, "Failed to kill process " ++ toString (1234 : Int) ++ ": " ++
        "No such process") :=
  (srott_C7 envDead 1234 true "No such process").2.2.2.2.2 rfl

/-- Claim C9: every non-`none` result of `get_process_info`, full or
degraded, carries a `pid` field equal to the pid of the matched
connection-table entry. -/
theorem srott_C9 (env : ScanEnv) (port : Int) (info : ProcessInfo)
    (h : get_process_info env port = some info) :
    ∃ c, env.connections.find? (connMatches port) = some c ∧
      info.pid = c.pid := by
  unfold get_process_info at h
  by_cases he : env.enumOk = true
  · rw [if_pos he] at h
    cases hf : env.connections.find? (connMatches port) with
    | none =>
      rw [hf] at h
      exact absurd h (by simp)
    | some c =>
      rw [hf] at h
      exact ⟨c, rfl, resolveConn_pid env c info h⟩
  · rw [if_neg he] at h
    exact absurd h (by simp)

/-- Witness for C9: the degraded result for port 80 in `envDenied` carries
the pid of the matched entry. -/
theorem srott_C9_w :
    ∃ c, envDenied.connections.find? (connMatches 80) = some c ∧
      ({ pid := 42, name := some "Access Denied", cmdline := none,
         user := some "N/A", status := none,
         create_time := none } : ProcessInfo).pid = c.pid :=
  srott_C9 envDenied 80 _ rfl

/-- Claim C10: the lifecycle actions perform no validation of the pid: any
integer pid, including zero and negative values, is passed unchanged to
`os.kill`, so when the OS call succeeds the action reports success rather
than rejecting the pid. -/
theorem srott_C10 (env : OsEnv) (pid : Int) (force : Bool) (hpid : pid ≤ 0) :
    (env.kill pid Sig.SIGCONT = Except.ok () →
      start_process env pid =
        (true, "Process " ++ toString pid ++ " resumed successfully")) ∧
    (env.kill pid Sig.SIGSTOP = Except.ok () →
      pause_process env pid =
        (true, "Process " ++ toString pid ++ " paused successfully")) ∧
    (env.kill pid (if force then Sig.SIGKILL else Sig.SIGTERM) =
        Except.ok () →
      kill_process env pid force =
        (true, "Process " ++ toString pid ++ " killed successfully")) := by
  refine ⟨?_, ?_, ?_⟩ <;> intro h <;>
    simp [start_process, pause_process, kill_process, h]

/-- Witness for C10: resuming pid `-1` succeeds when the OS call does. -/
theorem srott_C10_w :
    start_process envLive (-1) =
      (true, "Process " ++ toString (-1 : Int) ++ " resumed successfully") :=
  (srott_C10 envLive (-1) true (by norm_num)).1 rfl

/-- Claim C8: when an `onProgress` callback is supplied to a scan over
`[start, end]` with `start ≤ end` in which every probe's socket setup
succeeds, the scan completes and the callback is invoked exactly
`end - start + 1` times, the i-th invocation carrying the running
completed-count `i` (from 1 up to the total) and the fixed total as
arguments. -/
theorem srott_C8 (env : ScanEnv) (s e : Int) (t : Rat) (w : Int)
    (order : List Int) (hperm : order.Perm (scannedPorts s e))
    (hse : s ≤ e)
    (hsock : ∀ p ∈ order, env.sockSetupOk p = true) :
    ((progressTrace 0 order.length (e - s + 1)).length : Int) = e - s + 1 ∧
    (scan_ports env order (PortSniffer.init s e t w)).map
        (fun out => out.2.2) =
      some (progressTrace 0 order.length (e - s + 1)) := by
  have hlen : (progressTrace 0 order.length (e - s + 1)).length =
      order.length := by
    unfold progressTrace
    rw [List.length_map, List.length_range]
  constructor
  · rw [hlen, hperm.length_eq, length_scannedPorts]
    omega
  · rw [scan_ports_ok env order (PortSniffer.init s e t w) hsock]
    rfl

/-- Witness for C8 at the one-port range `[1, 1]`. -/
theorem srott_C8_w :
    (scan_ports envAllClosed [1] (PortSniffer.init 1 1 1 100)).map
        (fun out => out.2.2) =
      some (progressTrace 0 ([(1 : Int)].length) (1 - 1 + 1)) :=
  (srott_C8 envAllClosed 1 1 1 100 [1] (by decide) (by norm_num)
    (by decide)).2

/-- Claim C1 counterexample: the core is not stateless between invocations —
`scan_ports` appends to the accumulators left by a previous call, so a
second invocation on the same scanner instance (ports 1–2, all closed)
returns a result with `|openPorts| + |closedPorts| = 4` while
`total_scanned = 2`. -/
theorem srott_C1_counterexample :
    secondScan.map (fun out =>
      ((out.2.1.openPorts.length : Int) + (out.2.1.closedPorts.length : Int),
        out.2.1.total_scanned)) = some (4, 2) ∧ (4 : Int) ≠ 2 := by
  refine ⟨?_, by decide⟩
  decide

/-- Claim C1 (amended): on a fresh scanner instance (empty accumulators)
with `start ≤ end`, every completed scan — for every completion order of
the submitted probes — returns a result that partitions exactly the ports
of `[start, end]`: `total_scanned` equals `|openPorts| + |closedPorts|`, no
port appears in both collections, and a port appears in one of them exactly
when it lies in `[start, end]`.  The scanner retains its accumulators
between invocations, so this holds for the first invocation only, not for a
repeat call on the same instance. -/
theorem srott_C1_amended (env : ScanEnv) (s e : Int) (t : Rat) (w : Int)
    (order : List Int) (out : PortSniffer × ScanResult × List (Int × Int))
    (hperm : order.Perm (scannedPorts s e)) (hse : s ≤ e)
    (hout : scan_ports env order (PortSniffer.init s e t w) = some out) :
    ((out.2.1.openPorts.length : Int) + (out.2.1.closedPorts.length : Int) =
      out.2.1.total_scanned) ∧
    (∀ p : Int, p ∈ out.2.1.openPorts.map Prod.fst →
      p ∉ out.2.1.closedPorts) ∧
    (∀ p : Int,
      (p ∈ out.2.1.openPorts.map Prod.fst ∨ p ∈ out.2.1.closedPorts) ↔
        s ≤ p ∧ p ≤ e) := by
  have hnd : order.Nodup := hperm.nodup_iff.2 (nodup_scannedPorts s e)
  have hkeys := fresh_scan_keys env s e t w order hnd
  have hclosed := fresh_scan_closed env s e t w order
  have hlen : order.length = (e + 1 - s).toNat := by
    rw [hperm.length_eq, length_scannedPorts]
  obtain ⟨ho, hc⟩ :=
    scan_ports_some_fields env order (PortSniffer.init s e t w) out hout
  have htot :=
    scan_ports_some_total env order (PortSniffer.init s e t w) out hout
  refine ⟨?_, ?_, ?_⟩
  · rw [ho, hc, htot, hclosed]
    have h1 : (order.foldl (scanStep env)
        (PortSniffer.init s e t w)).open_ports.length =
        (order.filter (portOpen env)).length := by
      rw [← List.length_map _ Prod.fst, hkeys]
    rw [h1]
    have h2 := List.length_eq_length_filter_add (l := order) (portOpen env)
    have h3 : (PortSniffer.init s e t w).end_port -
        (PortSniffer.init s e t w).start_port + 1 = e - s + 1 := rfl
    rw [h3]
    omega
  · intro p hp hcmem
    rw [ho, hkeys] at hp
    rw [hc, hclosed] at hcmem
    have h1 := (List.mem_filter.1 hp).2
    have h2 := (List.mem_filter.1 hcmem).2
    rw [h1] at h2
    exact Bool.noConfusion h2
  · intro p
    rw [ho, hc, hkeys, hclosed]
    constructor
    · rintro (hp | hp)
      · exact mem_scannedPorts.1 (hperm.mem_iff.1 (List.mem_of_mem_filter hp))
      · exact mem_scannedPorts.1 (hperm.mem_iff.1 (List.mem_of_mem_filter hp))
    · intro hp
      have hmem : p ∈ order := hperm.mem_iff.2 (mem_scannedPorts.2 hp)
      by_cases hop : portOpen env p
      · exact Or.inl (List.mem_filter.2 ⟨hmem, hop⟩)
      · exact Or.inr (List.mem_filter.2 ⟨hmem, by simpa using hop⟩)

/-- Witness for C1 (amended) at the one-port range `[1, 1]`. -/
theorem srott_C1_amended_w :
    ((oneScanOut.2.1.openPorts.length : Int) +
        (oneScanOut.2.1.closedPorts.length : Int) =
      oneScanOut.2.1.total_scanned) :=
  (srott_C1_amended envAllClosed 1 1 1 100 [1] oneScanOut (by decide)
    (by norm_num) (by decide)).1

/-- Claim C2 counterexample: the source constructor does not validate its
arguments — `start = 0`, an inverted range `(5, 2)`, and a concurrency of
`0` are all accepted, while the spec's validating constructor rejects them
with `InvalidRange` / `InvalidConfig`. -/
theorem srott_C2_counterexample :
    spec_construct 0 10 1 100 = Except.error SpecError.InvalidRange ∧
    srott_construct 0 10 1 100 = Except.ok (PortSniffer.init 0 10 1 100) ∧
    spec_construct 5 2 1 100 = Except.error SpecError.InvalidRange ∧
    srott_construct 5 2 1 100 = Except.ok (PortSniffer.init 5 2 1 100) ∧
    spec_construct 1 10 1 0 = Except.error SpecError.InvalidConfig ∧
    srott_construct 1 10 1 0 = Except.ok (PortSniffer.init 1 10 1 0) := by
  refine ⟨?_, rfl, ?_, rfl, ?_, rfl⟩ <;> rfl

/-- Claim C2 (amended): `PortSniffer.__init__` performs no validation and
never fails: every `(start, end, timeout, workers)` tuple is accepted
as-is — including `start = 0`, inverted ranges and nonpositive
concurrency — and an inverted range yields an empty probe list at scan time
instead of a construction error. -/
theorem srott_C2_amended (s e : Int) (t : Rat) (w : Int) :
    srott_construct s e t w = Except.ok (PortSniffer.init s e t w) ∧
    (e < s → scannedPorts s e = []) := by
  refine ⟨rfl, ?_⟩
  intro h
  unfold scannedPorts pyRangeList
  have h0 : (e + 1 - s).toNat = 0 := by omega
  rw [h0]
  rfl

/-- Witness for C2 (amended) at the inverted range `(5, 2)`. -/
theorem srott_C2_amended_w : scannedPorts 5 2 = [] :=
  (srott_C2_amended 5 2 1 100).2 (by norm_num)

/-- Claim C3 counterexample: when attribute resolution is denied for the
process owning port 80, the degraded record returned by the code carries
`name = "Access Denied"` and `user = "N/A"` while its `status` field is
absent — not the `{pid, status=access_denied}` shape with all other fields
unset that the claim states. -/
theorem srott_C3_counterexample :
    get_process_info envDenied 80 =
      some { pid := 42, name := some "Access Denied", cmdline := none,
             user := some "N/A", status := none, create_time := none } ∧
    (get_process_info envDenied 80).map ProcessInfo.status ≠
      some (some "access_denied") ∧
    (get_process_info envDenied 80).map ProcessInfo.name ≠ some none := by
  refine ⟨rfl, ?_, ?_⟩ <;> decide

/-- Claim C3 (amended): when the matched entry's process cannot be
inspected, `get_process_info` returns a degraded record carrying the
entry's pid with `name = "Access Denied"` and `user = "N/A"` as sentinels
and the `cmdline`, `status` and `create_time` fields unset; the
vanished-process case (`NoSuchProcess`) is handled identically to the
permission-denied case by this same marker — consistently, but not by the
absent result or a distinguishable stale marker. -/
theorem srott_C3_amended (env : ScanEnv) (port : Int) (c : Conn)
    (henum : env.enumOk = true)
    (hfind : env.connections.find? (connMatches port) = some c)
    (hpl : env.procLookup c.pid = ProcOutcome.accessDenied ∨
      env.procLookup c.pid = ProcOutcome.noSuchProcess) :
    get_process_info env port =
      some { pid := c.pid, name := some "Access Denied", cmdline := none,
             user := some "N/A", status := none, create_time := none } := by
  unfold get_process_info
  rw [if_pos henum, hfind]
  show resolveConn env c = _
  unfold resolveConn
  rcases hpl with h | h <;> rw [h]

/-- Witness for C3 (amended) in `envDenied`. -/
theorem srott_C3_amended_w :
    get_process_info envDenied 80 =
      some { pid := 42, name := some "Access Denied", cmdline := none,
             user := some "N/A", status := none, create_time := none } :=
  srott_C3_amended envDenied 80
    { laddrPort := 80, status := "LISTEN", pid := 42 } rfl rfl (Or.inl rfl)

end Srott
